import Mathlib

/-!
Shallow embedding of the Billes `go-logger-client` package (`logger.go`).

The Go package keeps one package-level variable `logr *logger`; we model it
as an explicit `Option logger` argument threaded through the functions.
External nondeterminism is made explicit:
* the result of `fasthttp.Client.DoTimeout` is an oracle `net : Option String`
  (`none` = the POST succeeded, `some msg` = transport error with text `msg`);
* `json.Marshal` fails exactly when the entry's `data` payload is not
  encodable, which we model with a dedicated `GoValue.unencodable` value.

Observable side effects (local `writeLocalLog` lines, outgoing HTTP posts,
`os.Exit`) are collected in a list of `Event`s / an `Outcome`.
-/

namespace GoLoggerClient

/-- The `severity` string type of the package; only the five named constants
are ever used, so we embed it as the fixed enumeration. -/
inductive Severity where
  | critical
  | debug
  | error
  | info
  | warning
deriving DecidableEq, Repr

/-- A Go `interface \x7b\x7d` payload as relevant to this package: either absent
(`nil`), a string, or some value on which `json.Marshal` fails (e.g. a
channel or a function value). -/
inductive GoValue where
  | nil
  | str (s : String)
  | unencodable
deriving DecidableEq, Repr

/-- Whether `json.Marshal` succeeds on the `data` payload. -/
def encodable : GoValue → Bool
  | .unencodable => false
  | _ => true

/-- The `Options` struct. The Go field `Local` is called `localAlso` here
because `local` is reserved in Lean; `Timeout` is a Go `int`. -/
structure Options where
  host : String
  system : String
  token : String
  localAlso : Bool
  timeout : Int
deriving DecidableEq, Repr

/-- The `logger` struct wrapping the active options. -/
structure logger where
  options : Options
deriving DecidableEq, Repr

/-- The `logEntry` struct. -/
structure LogEntry where
  severity : Severity
  tags : List String
  message : String
  data : GoValue
deriving DecidableEq, Repr

/-- Observable side effects of a call:
* `localWrite e` — `writeLocalLog(e)` printed one line `ts severity - tags - message`
  to stdout (the `data` payload is not part of the line);
* `httpPost host token body` — an actual network POST was issued to `host`
  with the `billes-log-token` header set to `token` and the serialized entry
  as body. -/
inductive Event where
  | localWrite (e : LogEntry)
  | httpPost (host token : String) (body : LogEntry)
deriving DecidableEq, Repr

/-- The entry an event is about (the written entry, or the posted body). -/
def Event.entry : Event → LogEntry
  | .localWrite e => e
  | .httpPost _ _ b => b

/-- Whether the event is a network POST. -/
def Event.isPost : Event → Bool
  | .localWrite _ => false
  | .httpPost _ _ _ => true

/-- Result of an emitter call: either the process was terminated
(`os.Exit` / `coreLog.Fatal`) with an exit code, or control returned. -/
inductive Outcome where
  | halt (code : Nat) (events : List Event)
  | done (events : List Event)
deriving DecidableEq, Repr

/-- The events produced by a call, terminated or not. -/
def Outcome.events : Outcome → List Event
  | .halt _ evs => evs
  | .done evs => evs

/-- `const timeout = 10`. -/
def timeout : Int := 10

/-- `var logTags = []string\x7b"logging"\x7d`. -/
def logTags : List String := ["logging"]

/-- `json.Marshal(e)`: succeeds (returning the payload, which we represent by
the entry itself) exactly when the `data` field is encodable. -/
def marshal (e : LogEntry) : Option LogEntry :=
  if encodable e.data then some e else none

/-- The entry built by `newEntry` once the logger is known to be
instantiated: `append([]string\x7blogr.options.System\x7d, tags...)` prepends the
configured system name to the caller tags. -/
def mkEntry (lg : logger) (sev : Severity) (tags : List String)
    (message : String) (data : GoValue) : LogEntry :=
  ⟨sev, lg.options.system :: tags, message, data⟩

/-- `newEntry`: if the logger is not instantiated, `coreLog.Fatal` terminates
the process (modelled by `none`; the callers turn this into `Outcome.halt 1`);
otherwise the entry has the system name prepended to the tags. -/
def newEntry (logr : Option logger) (sev : Severity) (tags : List String)
    (message : String) (data : GoValue) : Option LogEntry :=
  match logr with
  | none => none
  | some lg => some (mkEntry lg sev tags message data)

/-- The message of the secondary warning written when `DoTimeout` fails. -/
def transportFailMsg (errMsg : String) : String :=
  "Failed while sending log entry request: " ++ errMsg

/-- `postLog`: with an empty host it fails immediately, with no network
attempt; otherwise it issues the POST, and on a transport error additionally
writes a local warning entry (built through `newEntry`, so tagged with the
system name and `logTags`). `net` is the `DoTimeout` result. -/
def postLog (lg : logger) (net : Option String) (body : LogEntry) :
    Option String × List Event :=
  if lg.options.host = "" then
    (some "Host is not set", [])
  else
    let evs := [Event.httpPost lg.options.host lg.options.token body]
    match net with
    | some errMsg =>
      -- `err != nil && logr.options.Host != ""` in the source
      if lg.options.host ≠ "" then
        (some errMsg,
          evs ++ [Event.localWrite
            (mkEntry lg .warning logTags (transportFailMsg errMsg) .nil)])
      else
        (some errMsg, evs)
    | none => (none, evs)

/-- The message of the secondary error emitted on a serialization failure. -/
def encodeFailMsg : String :=
  "Could not post to log due to \"data\" was not encodable - See local log"

/-- `log`: serialize, post, and decide the local fallback write. On a
serialization failure it writes the entry locally and re-enters itself via
`Error(logTags, encodeFailMsg, "")`; that secondary entry has an encodable
payload, so the recursion stops there. `net1` is the `DoTimeout` oracle for
this entry's own POST, `net2` the oracle for the POST of the secondary
error entry (used only on the serialization-failure path). -/
def log (lg : logger) (net1 net2 : Option String) (e : LogEntry) :
    Option String × List Event :=
  match h : marshal e with
  | none =>
    -- writeLocalLog(e); Error(logTags, encodeFailMsg, "")
    let r := log lg net2 net2 (mkEntry lg .error logTags encodeFailMsg (.str ""))
    (none, Event.localWrite e :: r.2)
  | some body =>
    let r := postLog lg net1 body
    if r.1.isSome || lg.options.localAlso then
      (r.1, r.2 ++ [Event.localWrite e])
    else
      (r.1, r.2)
termination_by (if encodable e.data then 0 else 1)
decreasing_by
  simp [marshal] at h
  rw [h]
  simp [mkEntry, encodable]

/-- Shared body of the emitters `Critical`, `Debug`, `Error`, `Info`,
`Warning`: `log(newEntry(sev, tags, message, data))`. When the logger is not
instantiated, `newEntry` calls `coreLog.Fatal`, terminating the process with
exit status 1 before anything is logged. -/
def dispatch (logr : Option logger) (net1 net2 : Option String) (sev : Severity)
    (tags : List String) (message : String) (data : GoValue) : Outcome :=
  match logr with
  | none => .halt 1 []
  | some lg => .done (log lg net1 net2 (mkEntry lg sev tags message data)).2

/-- `Critical`. -/
def Critical (logr : Option logger) (net1 net2 : Option String)
    (tags : List String) (message : String) (data : GoValue) : Outcome :=
  dispatch logr net1 net2 .critical tags message data

/-- `Debug`. -/
def Debug (logr : Option logger) (net1 net2 : Option String)
    (tags : List String) (message : String) (data : GoValue) : Outcome :=
  dispatch logr net1 net2 .debug tags message data

/-- `Error`. -/
def Error (logr : Option logger) (net1 net2 : Option String)
    (tags : List String) (message : String) (data : GoValue) : Outcome :=
  dispatch logr net1 net2 .error tags message data

/-- `Info`. -/
def Info (logr : Option logger) (net1 net2 : Option String)
    (tags : List String) (message : String) (data : GoValue) : Outcome :=
  dispatch logr net1 net2 .info tags message data

/-- `Warning`. -/
def Warning (logr : Option logger) (net1 net2 : Option String)
    (tags : List String) (message : String) (data : GoValue) : Outcome :=
  dispatch logr net1 net2 .warning tags message data

/-- `Fatal`: builds a CRITICAL entry, dispatches it, and, when `log`
returned no error and the `Local` flag is off, force-writes the local line
before `os.Exit(1)`. With an uninstantiated logger, `newEntry` terminates
the process first (also status 1, via `coreLog.Fatal`). -/
def Fatal (logr : Option logger) (net1 net2 : Option String)
    (tags : List String) (message : String) (data : GoValue) : Outcome :=
  match logr with
  | none => .halt 1 []
  | some lg =>
    let e := mkEntry lg .critical tags message data
    let r := log lg net1 net2 e
    if r.1.isNone && !lg.options.localAlso then
      .halt 1 (r.2 ++ [Event.localWrite e])
    else
      .halt 1 r.2

/-- The error text of a second `Init`. -/
def alreadyInitMsg : String := "Trying to instantiate an already instantiated logger"

/-- The message of the local-only warning of `Init`. -/
def hostNotSetMsg : String := "Host is not set"

/-- `Init`: applies the timeout default to its local copy of the options,
rejects a second initialization by dispatching an ERROR through the existing
logger and returning the error, otherwise installs the logger and, when the
host is empty, emits a local-only warning through the new logger. Returns
(returned error, new value of `logr`, events). -/
def Init (logr : Option logger) (net : Option String) (o : Options) :
    Option String × Option logger × List Event :=
  let o := if o.timeout < 1 then { o with timeout := timeout } else o
  match logr with
  | some lg =>
    -- Error(logTags, err.Error(), nil) goes through the existing logger
    (some alreadyInitMsg, some lg,
      (log lg net net (mkEntry lg .error logTags alreadyInitMsg .nil)).2)
  | none =>
    let lg : logger := ⟨o⟩
    if o.host = "" then
      -- Warning(logTags, "Host is not set", nil)
      (none, some lg, (log lg net net (mkEntry lg .warning logTags hostNotSetMsg .nil)).2)
    else
      (none, some lg, [])

/-! ## Unfolding lemmas -/

theorem log_of_encodable (lg : logger) (net1 net2 : Option String) (e : LogEntry)
    (h : encodable e.data = true) :
    log lg net1 net2 e =
      if (postLog lg net1 e).1.isSome || lg.options.localAlso then
        ((postLog lg net1 e).1, (postLog lg net1 e).2 ++ [Event.localWrite e])
      else postLog lg net1 e := by
  rw [log]
  split
  next heq => simp [marshal, h] at heq
  next body heq =>
    simp [marshal, h] at heq
    subst heq
    simp

theorem log_of_unencodable (lg : logger) (net1 net2 : Option String) (e : LogEntry)
    (h : encodable e.data = false) :
    log lg net1 net2 e =
      (none, Event.localWrite e ::
        (log lg net2 net2 (mkEntry lg .error logTags encodeFailMsg (.str ""))).2) := by
  rw [log]
  split
  next heq => rfl
  next body heq => simp [marshal, h] at heq

theorem postLog_empty_host (lg : logger) (net : Option String) (b : LogEntry)
    (h : lg.options.host = "") :
    postLog lg net b = (some "Host is not set", []) := by
  simp [postLog, h]

theorem postLog_ok (lg : logger) (b : LogEntry) (h : lg.options.host ≠ "") :
    postLog lg none b = (none, [Event.httpPost lg.options.host lg.options.token b]) := by
  simp [postLog, h]

theorem postLog_fail (lg : logger) (errMsg : String) (b : LogEntry)
    (h : lg.options.host ≠ "") :
    postLog lg (some errMsg) b =
      (some errMsg,
        [Event.httpPost lg.options.host lg.options.token b,
         Event.localWrite (mkEntry lg .warning logTags (transportFailMsg errMsg) .nil)]) := by
  simp [postLog, h]

/-- `log` of an encodable entry with an empty host: the post is refused
without a network attempt and the entry is written locally. -/
theorem log_empty_host (lg : logger) (net1 net2 : Option String) (e : LogEntry)
    (henc : encodable e.data = true) (h : lg.options.host = "") :
    log lg net1 net2 e = (some "Host is not set", [Event.localWrite e]) := by
  rw [log_of_encodable lg net1 net2 e henc, postLog_empty_host lg net1 e h]
  simp

/-- `log` of an encodable entry when the POST succeeds. -/
theorem log_post_ok (lg : logger) (net2 : Option String) (e : LogEntry)
    (henc : encodable e.data = true) (h : lg.options.host ≠ "") :
    log lg none net2 e =
      (none, [Event.httpPost lg.options.host lg.options.token e] ++
        (if lg.options.localAlso then [Event.localWrite e] else [])) := by
  rw [log_of_encodable lg none net2 e henc, postLog_ok lg e h]
  cases hl : lg.options.localAlso <;> simp [hl]

/-- `log` of an encodable entry when the POST fails: the transport warning
and then the entry itself are written locally. -/
theorem log_post_fail (lg : logger) (errMsg : String) (net2 : Option String)
    (e : LogEntry) (henc : encodable e.data = true) (h : lg.options.host ≠ "") :
    log lg (some errMsg) net2 e =
      (some errMsg,
        [Event.httpPost lg.options.host lg.options.token e,
         Event.localWrite (mkEntry lg .warning logTags (transportFailMsg errMsg) .nil),
         Event.localWrite e]) := by
  rw [log_of_encodable lg (some errMsg) net2 e henc, postLog_fail lg errMsg e h]
  simp

/-! ## Claims -/

/-- C2: for every emitter call after successful initialization, the record
constructed by `newEntry` carries the configured system name prepended to
the caller-supplied tags, which are kept in their original order. -/
theorem C2_system_prepended (lg : logger) (sev : Severity) (tags : List String)
    (message : String) (data : GoValue) :
    newEntry (some lg) sev tags message data =
      some { severity := sev, tags := lg.options.system :: tags,
             message := message, data := data } := rfl

/-- C9: every emitter called before a successful `Init` (logger not
instantiated) terminates the process with exit status 1, producing no events
— it neither returns nor silently drops the record. -/
theorem C9_uninitialized_halts (net1 net2 : Option String) (tags : List String)
    (message : String) (data : GoValue) :
    Critical none net1 net2 tags message data = .halt 1 [] ∧
    Debug none net1 net2 tags message data = .halt 1 [] ∧
    Error none net1 net2 tags message data = .halt 1 [] ∧
    Info none net1 net2 tags message data = .halt 1 [] ∧
    Warning none net1 net2 tags message data = .halt 1 [] ∧
    Fatal none net1 net2 tags message data = .halt 1 [] :=
  ⟨rfl, rfl, rfl, rfl, rfl, rfl⟩

/-- C8: `Init` stores the configuration with `timeout` replaced by 10 when
the supplied value is less than 1 (in particular when it is unset, i.e. 0),
and stores any timeout of at least 1 unchanged. -/
theorem C8_timeout_default (o : Options) (net : Option String) :
    (o.timeout < 1 → (Init none net o).2.1 = some ⟨{ o with timeout := 10 }⟩) ∧
    (1 ≤ o.timeout → (Init none net o).2.1 = some ⟨o⟩) := by
  constructor
  · intro h
    simp only [Init, if_pos h, timeout]
    split <;> rfl
  · intro h
    have h' : ¬ o.timeout < 1 := by omega
    simp only [Init, if_neg h']
    split <;> rfl

/-- `dispatch` on an instantiated logger. -/
theorem dispatch_some (lg : logger) (net1 net2 : Option String) (sev : Severity)
    (tags : List String) (message : String) (data : GoValue) :
    dispatch (some lg) net1 net2 sev tags message data =
      .done (log lg net1 net2 (mkEntry lg sev tags message data)).2 := rfl

/-- `encodable` fails exactly on the `unencodable` payload. -/
theorem encodable_eq_false_iff (v : GoValue) : encodable v = false ↔ v = .unencodable := by
  cases v <;> simp [encodable]

/-- Dispatching an encodable entry always produces at least one event that
carries that entry (its POST, or its local write). -/
theorem log_entry_event (lg : logger) (net1 net2 : Option String) (e : LogEntry)
    (henc : encodable e.data = true) :
    ∃ ev ∈ (log lg net1 net2 e).2, Event.entry ev = e := by
  by_cases hh : lg.options.host = ""
  · rw [log_empty_host lg net1 net2 e henc hh]
    exact ⟨.localWrite e, by simp, rfl⟩
  · cases net1 with
    | none =>
      rw [log_post_ok lg net2 e henc hh]
      exact ⟨.httpPost lg.options.host lg.options.token e, by simp, rfl⟩
    | some m =>
      rw [log_post_fail lg m net2 e henc hh]
      exact ⟨.httpPost lg.options.host lg.options.token e, by simp, rfl⟩

/-- Whenever `log` returns an error, or the `Local` flag is set, or the
entry was not encodable, the entry itself is written locally. -/
theorem localWrite_mem_log (lg : logger) (net1 net2 : Option String) (e : LogEntry)
    (h : (log lg net1 net2 e).1.isSome = true ∨ lg.options.localAlso = true ∨
      encodable e.data = false) :
    Event.localWrite e ∈ (log lg net1 net2 e).2 := by
  by_cases henc : encodable e.data = true
  · by_cases hh : lg.options.host = ""
    · rw [log_empty_host lg net1 net2 e henc hh]; simp
    · cases net1 with
      | none =>
        rw [log_post_ok lg net2 e henc hh]
        rcases h with h | h | h
        · rw [log_post_ok lg net2 e henc hh] at h; simp at h
        · simp [h]
        · rw [henc] at h; cases h
      | some m => rw [log_post_fail lg m net2 e henc hh]; simp
  · rw [log_of_unencodable lg net1 net2 e (by simpa using henc)]; simp

/-- `Init` from the uninstantiated state with an empty host: succeeds and
emits exactly one local WARNING record "Host is not set" tagged with the
system name and `logTags`. -/
theorem Init_empty_host (net : Option String) (o : Options) (ho : o.host = "") :
    (Init none net o).1 = none ∧
    (Init none net o).2.2 =
      [Event.localWrite ⟨.warning, o.system :: logTags, hostNotSetMsg, .nil⟩] := by
  obtain ⟨h, s, tk, l, ti⟩ := o
  simp only [Options.host] at ho
  subst ho
  unfold Init
  dsimp only
  by_cases ht : ti < 1
  · rw [if_pos ht, if_pos rfl]
    rw [log_empty_host ⟨⟨"", s, tk, l, timeout⟩⟩ net net
      (mkEntry ⟨⟨"", s, tk, l, timeout⟩⟩ .warning logTags hostNotSetMsg .nil) rfl rfl]
    exact ⟨rfl, rfl⟩
  · rw [if_neg ht, if_pos rfl]
    rw [log_empty_host ⟨⟨"", s, tk, l, ti⟩⟩ net net
      (mkEntry ⟨⟨"", s, tk, l, ti⟩⟩ .warning logTags hostNotSetMsg .nil) rfl rfl]
    exact ⟨rfl, rfl⟩

/-- `Init` with the already-instantiated logger: unfolding equation. -/
theorem Init_some (lg : logger) (net : Option String) (o : Options) :
    Init (some lg) net o =
      (some alreadyInitMsg, some lg,
        (log lg net net (mkEntry lg .error logTags alreadyInitMsg .nil)).2) := rfl

/-- `Init` from the uninstantiated state: returned error and stored state. -/
theorem Init_state (o : Options) (net : Option String) :
    (Init none net o).1 = none ∧
    (Init none net o).2.1 =
      some ⟨if o.timeout < 1 then { o with timeout := timeout } else o⟩ := by
  by_cases ht : o.timeout < 1 <;>
    simp only [Init, ht, ite_true, ite_false, reduceIte] <;>
    exact ⟨by split <;> rfl, by split <;> rfl⟩

/-- `Fatal` with the instantiated logger: unfolding equation. -/
theorem Fatal_some (lg : logger) (net1 net2 : Option String)
    (tags : List String) (message : String) (data : GoValue) :
    Fatal (some lg) net1 net2 tags message data =
      (if ((log lg net1 net2 (mkEntry lg .critical tags message data)).1.isNone &&
          !lg.options.localAlso) = true then
        .halt 1 ((log lg net1 net2 (mkEntry lg .critical tags message data)).2 ++
          [Event.localWrite (mkEntry lg .critical tags message data)])
      else
        .halt 1 (log lg net1 net2 (mkEntry lg .critical tags message data)).2) := rfl

/-- C1: the first `Init` succeeds and installs the supplied (valid)
configuration; a second `Init` returns the AlreadyInitialized error, leaves
the stored configuration unchanged, and emits an ERROR record tagged
`logging` built against the existing (first) configuration. -/
theorem C1_init_twice (o o₂ : Options) (net net₂ : Option String)
    (hvalid : 1 ≤ o.timeout) :
    (Init none net o).1 = none ∧
    (Init none net o).2.1 = some ⟨o⟩ ∧
    (Init (some ⟨o⟩) net₂ o₂).1 = some alreadyInitMsg ∧
    (Init (some ⟨o⟩) net₂ o₂).2.1 = some ⟨o⟩ ∧
    ∃ ev ∈ (Init (some ⟨o⟩) net₂ o₂).2.2,
      (Event.entry ev).severity = .error ∧
      (Event.entry ev).message = alreadyInitMsg ∧
      (Event.entry ev).tags = o.system :: logTags := by
  have hstate := Init_state o net
  have hif : (if o.timeout < 1 then { o with timeout := timeout } else o) = o :=
    if_neg (by omega)
  refine ⟨hstate.1, by rw [hstate.2, hif], by rw [Init_some], by rw [Init_some], ?_⟩
  rw [Init_some]
  obtain ⟨ev, hmem, hent⟩ := log_entry_event ⟨o⟩ net₂ net₂
    (mkEntry ⟨o⟩ .error logTags alreadyInitMsg .nil) rfl
  exact ⟨ev, hmem, by rw [hent]; rfl, by rw [hent]; rfl, by rw [hent]; rfl⟩

/-- C3: when the configured host is empty, `postLog` fails immediately with
the "Host is not set" condition and no network attempt, every record
dispatched by an emitter is written locally and no POST event occurs, and
`Init` additionally emits exactly one local WARNING record. -/
theorem C3_empty_host_local_only (lg : logger) (net1 net2 : Option String)
    (sev : Severity) (tags : List String) (message : String) (data : GoValue)
    (b : LogEntry) (o : Options)
    (hlg : lg.options.host = "") (ho : o.host = "") :
    postLog lg net1 b = (some "Host is not set", []) ∧
    (∃ evs, dispatch (some lg) net1 net2 sev tags message data = .done evs ∧
      Event.localWrite (mkEntry lg sev tags message data) ∈ evs ∧
      ∀ ev ∈ evs, ev.isPost = false) ∧
    (Init none net1 o).1 = none ∧
    (Init none net1 o).2.2 =
      [Event.localWrite ⟨.warning, o.system :: logTags, hostNotSetMsg, .nil⟩] := by
  refine ⟨postLog_empty_host lg net1 b hlg, ?_, Init_empty_host net1 o ho⟩
  have hevs : (log lg net1 net2 (mkEntry lg sev tags message data)).2 =
      if encodable data then [Event.localWrite (mkEntry lg sev tags message data)]
      else [Event.localWrite (mkEntry lg sev tags message data),
            Event.localWrite (mkEntry lg .error logTags encodeFailMsg (.str ""))] := by
    by_cases henc : encodable data = true
    · rw [log_empty_host lg net1 net2 (mkEntry lg sev tags message data) henc hlg,
        if_pos henc]
    · have henc' : encodable data = false := by simpa using henc
      rw [log_of_unencodable lg net1 net2 (mkEntry lg sev tags message data) henc',
        log_empty_host lg net2 net2 (mkEntry lg .error logTags encodeFailMsg (.str ""))
          rfl hlg,
        if_neg henc]
  rw [dispatch_some, hevs]
  refine ⟨_, rfl, ?_, ?_⟩
  · split <;> simp
  · intro ev hev
    split at hev <;> simp at hev
    · subst hev; rfl
    · rcases hev with hev | hev <;> subst hev <;> rfl

/-- C4: when the POST fails and `Local` is off, the record is still written
locally exactly once, after a single secondary local WARNING record that
describes the transport failure. -/
theorem C4_transport_failure (lg : logger) (errMsg : String) (net2 : Option String)
    (e : LogEntry) (hhost : lg.options.host ≠ "")
    (hlocal : lg.options.localAlso = false) (henc : encodable e.data = true) :
    log lg (some errMsg) net2 e =
      (some errMsg,
        [Event.httpPost lg.options.host lg.options.token e,
         Event.localWrite (mkEntry lg .warning logTags (transportFailMsg errMsg) .nil),
         Event.localWrite e]) :=
  log_post_fail lg errMsg net2 e henc hhost

/-- C5: when serialization of the record fails, `log` writes the record
locally first, emits a secondary ERROR record tagged `logging`, never posts
the original record, and returns no error. -/
theorem C5_serialization_failure (lg : logger) (net1 net2 : Option String)
    (e : LogEntry) (henc : encodable e.data = false) :
    (log lg net1 net2 e).1 = none ∧
    (∃ rest, (log lg net1 net2 e).2 = Event.localWrite e :: rest) ∧
    (∃ ev ∈ (log lg net1 net2 e).2, (Event.entry ev).severity = .error ∧
      (Event.entry ev).tags = lg.options.system :: logTags) ∧
    (∀ ev ∈ (log lg net1 net2 e).2, ev.isPost = true → Event.entry ev ≠ e) := by
  have hdata : e.data = .unencodable := (encodable_eq_false_iff e.data).mp henc
  have hne : mkEntry lg .error logTags encodeFailMsg (.str "") ≠ e := by
    intro hc
    rw [← hc] at hdata
    simp [mkEntry] at hdata
  rw [log_of_unencodable lg net1 net2 e henc]
  refine ⟨rfl, ⟨_, rfl⟩, ?_, ?_⟩
  · obtain ⟨ev, hev, hent⟩ :=
      log_entry_event lg net2 net2 (mkEntry lg .error logTags encodeFailMsg (.str "")) rfl
    exact ⟨ev, by simp [hev], by rw [hent]; exact ⟨rfl, rfl⟩⟩
  · intro ev hev hpost
    simp at hev
    rcases hev with hev | hev
    · subst hev; cases hpost
    · by_cases hh : lg.options.host = ""
      · rw [log_empty_host lg net2 net2
          (mkEntry lg .error logTags encodeFailMsg (.str "")) rfl hh] at hev
        simp at hev; subst hev; cases hpost
      · cases net2 with
        | none =>
          rw [log_post_ok lg none
            (mkEntry lg .error logTags encodeFailMsg (.str "")) rfl hh] at hev
          simp at hev
          rcases hev with hev | hev
          · subst hev
            exact hne
          · rcases hev with ⟨hl, hev⟩
            subst hev; cases hpost
        | some m =>
          rw [log_post_fail lg m (some m)
            (mkEntry lg .error logTags encodeFailMsg (.str "")) rfl hh] at hev
          simp at hev
          rcases hev with hev | hev | hev
          · subst hev
            exact hne
          · subst hev; cases hpost
          · subst hev; cases hpost

/-- C6: with an instantiated logger, `Fatal` always terminates the process
with exit status 1, its events always include the local write of the
CRITICAL record, and when `log` returned no error while `Local` is off the
local copy is exactly the force-written final event. -/
theorem C6_fatal (lg : logger) (net1 net2 : Option String)
    (tags : List String) (message : String) (data : GoValue) :
    (∃ evs, Fatal (some lg) net1 net2 tags message data = .halt 1 evs) ∧
    Event.localWrite (mkEntry lg .critical tags message data) ∈
      (Fatal (some lg) net1 net2 tags message data).events ∧
    ((log lg net1 net2 (mkEntry lg .critical tags message data)).1 = none →
      lg.options.localAlso = false →
      (Fatal (some lg) net1 net2 tags message data).events =
        (log lg net1 net2 (mkEntry lg .critical tags message data)).2 ++
          [Event.localWrite (mkEntry lg .critical tags message data)]) := by
  rw [Fatal_some]
  by_cases hc : ((log lg net1 net2 (mkEntry lg .critical tags message data)).1.isNone &&
      !lg.options.localAlso) = true
  · rw [if_pos hc]
    exact ⟨⟨_, rfl⟩, by simp [Outcome.events], fun _ _ => rfl⟩
  · rw [if_neg hc]
    refine ⟨⟨_, rfl⟩, ?_, ?_⟩
    · simp only [Outcome.events]
      cases hs : (log lg net1 net2 (mkEntry lg .critical tags message data)).1.isSome
      · cases hl : lg.options.localAlso
        · exfalso
          apply hc
          have hn : (log lg net1 net2 (mkEntry lg .critical tags message data)).1.isNone
              = true := by
            cases ho : (log lg net1 net2 (mkEntry lg .critical tags message data)).1 <;>
              simp_all
          rw [hn, hl]
          rfl
        · exact localWrite_mem_log lg net1 net2 _ (.inr (.inl hl))
      · exact localWrite_mem_log lg net1 net2 _ (.inl hs)
    · intro h1 h2
      exfalso
      apply hc
      rw [h1, h2]
      rfl

/-- C7: when the POST succeeds on a non-empty host, a non-`Fatal` emitter
writes the record locally exactly once if `Local` is set and not at all if
`Local` is off, in addition to the remote delivery. -/
theorem C7_success_local_flag (lg : logger) (net2 : Option String) (sev : Severity)
    (tags : List String) (message : String) (data : GoValue)
    (hhost : lg.options.host ≠ "") (henc : encodable data = true) :
    dispatch (some lg) none net2 sev tags message data =
      .done ([Event.httpPost lg.options.host lg.options.token
          (mkEntry lg sev tags message data)] ++
        (if lg.options.localAlso then
          [Event.localWrite (mkEntry lg sev tags message data)] else [])) := by
  rw [dispatch_some, log_post_ok lg net2 (mkEntry lg sev tags message data) henc hhost]

/-- No local write of a CRITICAL entry occurs among the events of the
secondary error dispatched on a serialization failure. -/
theorem count_secondary_zero (lg : logger) (net2 : Option String)
    (tags : List String) (message : String) :
    List.count (Event.localWrite (mkEntry lg .critical tags message .unencodable))
      (log lg net2 net2 (mkEntry lg .error logTags encodeFailMsg (.str ""))).2 = 0 := by
  by_cases hh : lg.options.host = ""
  · rw [log_empty_host lg net2 net2 (mkEntry lg .error logTags encodeFailMsg (.str ""))
      rfl hh]
    simp [mkEntry]
  · cases net2 with
    | none =>
      rw [log_post_ok lg none (mkEntry lg .error logTags encodeFailMsg (.str "")) rfl hh]
      cases hl : lg.options.localAlso <;> simp [hl, mkEntry]
    | some m =>
      rw [log_post_fail lg m (some m) (mkEntry lg .error logTags encodeFailMsg (.str ""))
        rfl hh]
      simp [mkEntry]

/-- C10: `Fatal` on a record whose payload fails serialization, with `Local`
off, writes the record's local line twice: once in `log`'s fallback and once
again by the force-write, because `log` returns no error on that path. -/
theorem C10_fatal_double_write (lg : logger) (net1 net2 : Option String)
    (tags : List String) (message : String)
    (hlocal : lg.options.localAlso = false) :
    (Fatal (some lg) net1 net2 tags message GoValue.unencodable).events.count
      (Event.localWrite (mkEntry lg .critical tags message GoValue.unencodable)) = 2 := by
  have hfatal : Fatal (some lg) net1 net2 tags message GoValue.unencodable =
      .halt 1 ((Event.localWrite (mkEntry lg .critical tags message .unencodable) ::
          (log lg net2 net2 (mkEntry lg .error logTags encodeFailMsg (.str ""))).2) ++
        [Event.localWrite (mkEntry lg .critical tags message .unencodable)]) := by
    rw [Fatal_some,
      log_of_unencodable lg net1 net2 (mkEntry lg .critical tags message .unencodable) rfl,
      hlocal]
    rfl
  rw [hfatal]
  simp only [Outcome.events]
  rw [List.count_append, List.count_cons]
  rw [count_secondary_zero lg net2 tags message]
  simp

/-! ## Concrete sample values for the witnesses -/

/-- A remote configuration: non-empty host, `Local` off, valid timeout. -/
def sampleRemote : Options := ⟨"http://logbook.example", "svc", "tok", false, 10⟩

/-- The logger instantiated with `sampleRemote`. -/
def sampleLg : logger := ⟨sampleRemote⟩

/-- A local-only configuration: empty host. -/
def sampleLocalOpts : Options := ⟨"", "svc", "", false, 10⟩

/-- The logger instantiated with `sampleLocalOpts`. -/
def sampleLocalLg : logger := ⟨sampleLocalOpts⟩

/-- A second configuration used for the double-`Init` witness. -/
def sampleOpts2 : Options := ⟨"h2", "other", "t2", true, 3⟩

/-- A configuration whose timeout is unset (0). -/
def sampleOptsT0 : Options := ⟨"h", "s", "t", false, 0⟩

/-- An entry with an encodable payload. -/
def sampleEntry : LogEntry := ⟨.info, ["svc", "startup"], "ready", .nil⟩

/-- An entry whose payload fails serialization. -/
def sampleBadEntry : LogEntry := ⟨.info, ["svc", "startup"], "ready", .unencodable⟩

/-- Concrete witness for C1. -/
theorem C1_init_twice_witness :
    1 ≤ sampleRemote.timeout ∧
    ((Init none none sampleRemote).1 = none ∧
     (Init none none sampleRemote).2.1 = some ⟨sampleRemote⟩ ∧
     (Init (some ⟨sampleRemote⟩) none sampleOpts2).1 = some alreadyInitMsg ∧
     (Init (some ⟨sampleRemote⟩) none sampleOpts2).2.1 = some ⟨sampleRemote⟩ ∧
     ∃ ev ∈ (Init (some ⟨sampleRemote⟩) none sampleOpts2).2.2,
       (Event.entry ev).severity = .error ∧
       (Event.entry ev).message = alreadyInitMsg ∧
       (Event.entry ev).tags = sampleRemote.system :: logTags) :=
  ⟨by decide, C1_init_twice sampleRemote sampleOpts2 none none (by decide)⟩

/-- Concrete witness for C3. -/
theorem C3_empty_host_local_only_witness :
    (sampleLocalLg.options.host = "" ∧ sampleLocalOpts.host = "") ∧
    (postLog sampleLocalLg none sampleEntry = (some "Host is not set", []) ∧
     (∃ evs, dispatch (some sampleLocalLg) none none .info ["startup"] "ready" .nil =
        .done evs ∧
       Event.localWrite (mkEntry sampleLocalLg .info ["startup"] "ready" .nil) ∈ evs ∧
       ∀ ev ∈ evs, ev.isPost = false) ∧
     (Init none none sampleLocalOpts).1 = none ∧
     (Init none none sampleLocalOpts).2.2 =
       [Event.localWrite
          ⟨.warning, sampleLocalOpts.system :: logTags, hostNotSetMsg, .nil⟩]) :=
  ⟨⟨rfl, rfl⟩, C3_empty_host_local_only sampleLocalLg none none .info ["startup"] "ready"
    .nil sampleEntry sampleLocalOpts rfl rfl⟩

/-- Concrete witness for C4. -/
theorem C4_transport_failure_witness :
    (sampleLg.options.host ≠ "" ∧ sampleLg.options.localAlso = false ∧
      encodable sampleEntry.data = true) ∧
    log sampleLg (some "timeout") none sampleEntry =
      (some "timeout",
        [Event.httpPost sampleLg.options.host sampleLg.options.token sampleEntry,
         Event.localWrite
           (mkEntry sampleLg .warning logTags (transportFailMsg "timeout") .nil),
         Event.localWrite sampleEntry]) :=
  ⟨⟨by decide, rfl, rfl⟩,
    C4_transport_failure sampleLg "timeout" none sampleEntry (by decide) rfl rfl⟩

/-- Concrete witness for C5. -/
theorem C5_serialization_failure_witness :
    encodable sampleBadEntry.data = false ∧
    ((log sampleLg none none sampleBadEntry).1 = none ∧
     (∃ rest, (log sampleLg none none sampleBadEntry).2 =
        Event.localWrite sampleBadEntry :: rest) ∧
     (∃ ev ∈ (log sampleLg none none sampleBadEntry).2,
        (Event.entry ev).severity = .error ∧
        (Event.entry ev).tags = sampleLg.options.system :: logTags) ∧
     (∀ ev ∈ (log sampleLg none none sampleBadEntry).2,
        ev.isPost = true → Event.entry ev ≠ sampleBadEntry)) :=
  ⟨rfl, C5_serialization_failure sampleLg none none sampleBadEntry rfl⟩

/-- Concrete witness for C6. -/
theorem C6_fatal_witness :
    (∃ evs, Fatal (some sampleLg) none none ["t"] "m" .nil = .halt 1 evs) ∧
    Event.localWrite (mkEntry sampleLg .critical ["t"] "m" .nil) ∈
      (Fatal (some sampleLg) none none ["t"] "m" .nil).events ∧
    ((log sampleLg none none (mkEntry sampleLg .critical ["t"] "m" .nil)).1 = none →
      sampleLg.options.localAlso = false →
      (Fatal (some sampleLg) none none ["t"] "m" .nil).events =
        (log sampleLg none none (mkEntry sampleLg .critical ["t"] "m" .nil)).2 ++
          [Event.localWrite (mkEntry sampleLg .critical ["t"] "m" .nil)]) :=
  C6_fatal sampleLg none none ["t"] "m" GoValue.nil

/-- Concrete witness for C7. -/
theorem C7_success_local_flag_witness :
    (sampleLg.options.host ≠ "" ∧ encodable GoValue.nil = true) ∧
    dispatch (some sampleLg) none none .info ["t"] "m" .nil =
      .done ([Event.httpPost sampleLg.options.host sampleLg.options.token
          (mkEntry sampleLg .info ["t"] "m" .nil)] ++
        (if sampleLg.options.localAlso then
          [Event.localWrite (mkEntry sampleLg .info ["t"] "m" .nil)] else [])) :=
  ⟨⟨by decide, rfl⟩, C7_success_local_flag sampleLg none .info ["t"] "m" .nil (by decide) rfl⟩

/-- Concrete witness for C8. -/
theorem C8_timeout_default_witness :
    (sampleOptsT0.timeout < 1 →
      (Init none none sampleOptsT0).2.1 = some ⟨{ sampleOptsT0 with timeout := 10 }⟩) ∧
    (1 ≤ sampleOptsT0.timeout →
      (Init none none sampleOptsT0).2.1 = some ⟨sampleOptsT0⟩) :=
  C8_timeout_default sampleOptsT0 none

/-- Concrete witness for C10. -/
theorem C10_fatal_double_write_witness :
    sampleLg.options.localAlso = false ∧
    (Fatal (some sampleLg) none none ["t"] "m" GoValue.unencodable).events.count
      (Event.localWrite (mkEntry sampleLg .critical ["t"] "m" GoValue.unencodable)) = 2 :=
  ⟨rfl, C10_fatal_double_write sampleLg none none ["t"] "m" rfl⟩

end GoLoggerClient
